import Mathlib

/-!
Verification of the PythonServer repository (a calculator client / caching
proxy / evaluator server) against its natural-language specification.

The repository ships three files, `src/server.py`, `src/proxy.py` and
`src/client.py`, all of which import a module `api` that is not part of the
repository snapshot.  Everything taken from the three shipped files is
translated directly from their code; the parts of `api` that the claims need
(the expression model, the message header and its constructors, the
stringifier) are modelled from the specification and are marked as such in
their doc comments.

Numeric values are modelled as `Int`.  The specification describes operand
values only as reals and no claim under verification depends on non-integer
arithmetic (the concrete examples use small integers and the addition
operator); Python float semantics are outside this shallow embedding.
-/

namespace PythonServer

/-- Modelled from the spec: the registry of binary operators
(`ADD`, `SUB`, `MUL`, `DIV`, `MOD`, `POW`), a closed enumeration.
The registry lives in the `api` module, which is not under `src/`. -/
inductive BinaryOp
| add
| sub
| mul
| div
| mod
| pow
deriving DecidableEq

/-- Modelled from the spec: the evaluation rule of a binary operator
(spec: "evaluation rule (real x real -> real)").  Division, modulo and
power are integer stand-ins; no claim depends on their values. -/
def BinaryOp.fn : BinaryOp → Int → Int → Int
| .add, a, b => a + b
| .sub, a, b => a - b
| .mul, a, b => a * b
| .div, a, b => a / b
| .mod, a, b => a % b
| .pow, a, b => a ^ b.toNat

/-- Modelled from the spec: the display token of a binary operator. -/
def BinaryOp.token : BinaryOp → String
| .add => "+"
| .sub => "-"
| .mul => "*"
| .div => "/"
| .mod => "%"
| .pow => "^"

/-- Modelled from the spec: the registry of unary operators (`NEG`, `POS`). -/
inductive UnaryOp
| neg
| pos
deriving DecidableEq

/-- Modelled from the spec: the evaluation rule of a unary operator. -/
def UnaryOp.fn : UnaryOp → Int → Int
| .neg, a => -a
| .pos, a => a

/-- Modelled from the spec: the display token of a unary operator. -/
def UnaryOp.token : UnaryOp → String
| .neg => "-"
| .pos => "+"

/-- Modelled from the spec: the registry of built-in functions
(`SIN`, `COS`, `TAN`, `SQRT`, `LOG`, `MAX`, `MIN`, `POW`, `RAND`). -/
inductive Func
| sin
| cos
| tan
| sqrt
| log
| fmax
| fmin
| fpow
| rand
deriving DecidableEq

/-- Modelled from the spec: the evaluation rule of a built-in function
(spec: "variadic -> real").  `MAX` and `MIN` are the genuine fold over the
argument list; the transcendental functions are not representable over
integers and get opaque stand-ins — no claim depends on their values. -/
def Func.fn : Func → List Int → Int
| .fmax, vs => vs.foldl max 0
| .fmin, vs => vs.foldl min 0
| .fpow, vs => match vs with
  | [a, b] => a ^ b.toNat
  | _ => 0
| _, _ => 0

/-- Modelled from the spec: the display token of a built-in function. -/
def Func.token : Func → String
| .sin => "sin"
| .cos => "cos"
| .tan => "tan"
| .sqrt => "sqrt"
| .log => "log"
| .fmax => "max"
| .fmin => "min"
| .fpow => "pow"
| .rand => "rand"

mutual

/-- Modelled from the spec: the expression tree (`Constant`, `NamedConstant`,
`BinaryExpr`, `UnaryExpr`, `FunctionCallExpr`), a closed tagged union.
Where the Python code places a raw number in an operand position (e.g.
`BinaryExpr(left, op, step)` with `left` a number), the spec's
`type_fallback` rule normalizes it to a `Constant`; the embedding applies
that normalization, so operand positions always hold expressions. -/
inductive Expr
| const (v : Int)
| namedConst (n : String) (v : Int)
| binary (l : Expr) (op : BinaryOp) (r : Expr)
| unary (op : UnaryOp) (a : Expr)
| call (f : Func) (args : ExprList)
deriving DecidableEq

/-- Argument list of a `FunctionCallExpr` (a list of expressions, kept as a
separate mutual inductive so that structural recursion is available). -/
inductive ExprList
| nil
| cons (a : Expr) (tl : ExprList)
deriving DecidableEq

end

/-- List concatenation on `ExprList`. -/
def ExprList.append : ExprList → ExprList → ExprList
| .nil, l => l
| .cons a tl, l => .cons a (tl.append l)

/-- Wrap a list of already-computed numeric values as `Constant` expressions
(the spec's `type_fallback` applied to the Python lists of resolved
argument values). -/
def ofVals : List Int → ExprList
| [] => .nil
| v :: r => .cons (.const v) (ofVals r)

/-- An expression is composite when it is not a `Constant`/`NamedConstant`
leaf; the stringifier parenthesizes composite sub-expressions. -/
def Expr.isComposite : Expr → Bool
| .const _ => false
| .namedConst _ _ => false
| _ => true

mutual

/-- Modelled from the spec: stringification "renders each variant with its
registered display token, parenthesizing sub-expressions when
`add_brackets` is requested, preserving the structural left-to-right
operand order" (the function itself lives in the missing `api` module).
Matches the step renderings given in the spec: `"2 + 3"`, `"5"`,
`"(1 + 2) * 4"`, `"3 * 4"`. -/
def stringify : Bool → Expr → String
| _, .const v => toString v
| _, .namedConst n _ => n
| b, .binary l op r =>
    (if b && l.isComposite then "(" ++ stringify b l ++ ")" else stringify b l)
    ++ " " ++ op.token ++ " " ++
    (if b && r.isComposite then "(" ++ stringify b r ++ ")" else stringify b r)
| b, .unary op a =>
    op.token ++
    (if b && a.isComposite then "(" ++ stringify b a ++ ")" else stringify b a)
| b, .call f args => f.token ++ "(" ++ stringifyArgs b args ++ ")"

/-- Renders a function-call argument list, comma separated. -/
def stringifyArgs : Bool → ExprList → String
| _, .nil => ""
| b, .cons a .nil => stringify b a
| b, .cons a (.cons x tl) => stringify b a ++ ", " ++ stringifyArgs b (.cons x tl)

end

mutual

/-- Translated from `src/server.py`, `calculate` (lines 12-56): recursively
evaluates an expression, appending the intermediate reduction steps to the
`steps` list it is given and returning the numeric result together with
that list.  The Python function mutates the list passed in (every append
goes to the caller-supplied list) and passes a fresh empty list to each
recursive call; the embedding threads the list explicitly, returning
`steps ++ (newly appended steps)`. -/
def calculate : Expr → List Expr → Int × List Expr
| .const v, steps => (v, steps)
| .namedConst _ v, steps => (v, steps)
| .binary l op r, steps =>
    let lr := calculate l []
    let steps1 := steps ++ lr.2.dropLast.map (fun s => Expr.binary s op r)
    let rr := calculate r []
    let steps2 := steps1 ++ rr.2.dropLast.map (fun s => Expr.binary (.const lr.1) op s)
    (op.fn lr.1 rr.1,
      steps2 ++ [Expr.binary (.const lr.1) op (.const rr.1), .const (op.fn lr.1 rr.1)])
| .unary op a, steps =>
    let ar := calculate a []
    let steps1 := steps ++ ar.2.dropLast.map (fun s => Expr.unary op s)
    (op.fn ar.1, steps1 ++ [Expr.unary op (.const ar.1), .const (op.fn ar.1)])
| .call f args, steps =>
    let ar := calcArgs f args [] steps
    (f.fn ar.1, ar.2 ++ [Expr.call f (ofVals ar.1), .const (f.fn ar.1)])

/-- Translated from the argument loop of the `FunctionCallExpr` branch of
`calculate` (`src/server.py` lines 43-51): resolves the arguments strictly
left to right; for each intermediate step of the current argument except
its last, appends a `FunctionCallExpr` whose earlier positions hold the
already-resolved values, whose current position holds the partial step and
whose later positions hold the original unresolved sub-expressions
(`args + [step] + expr.args[len(args) + 1:]` in the source). -/
def calcArgs : Func → ExprList → List Int → List Expr → List Int × List Expr
| _, .nil, vals, steps => (vals, steps)
| f, .cons a rest, vals, steps =>
    let r := calculate a []
    let steps1 := steps ++
      r.2.dropLast.map (fun s => Expr.call f ((ofVals vals).append (.cons s rest)))
    calcArgs f rest (vals ++ [r.1]) steps1

end

mutual

/-- Written from the spec's words (section 4.3, "Evaluator"): the value of an
expression — the literal for leaves, the operator or function applied to the
recursively computed operand values otherwise.  Kept separate from
`calculate` so that the evaluator translated from the source can be compared
against the step contract the spec prescribes. -/
def specValue : Expr → Int
| .const v => v
| .namedConst _ v => v
| .binary l op r => op.fn (specValue l) (specValue r)
| .unary op a => op.fn (specValue a)
| .call f args => f.fn (specValues args)

/-- Values of an argument list, left to right (spec side). -/
def specValues : ExprList → List Int
| .nil => []
| .cons a tl => specValue a :: specValues tl

/-- Written from the spec's words (section 4.3): the step trace prescribed
per variant.  Leaves emit no steps.  A `BinaryExpr` re-emits every left
intermediate step except the last wrapped against the untouched right
operand, then every right intermediate step except the last against the
resolved left value, then the fully resolved `BinaryExpr`, then the terminal
`Constant`.  A `UnaryExpr` is the single-branch analogue.  A
`FunctionCallExpr` resolves arguments strictly left to right (see
`specArgSteps`), then emits the fully resolved call and the terminal
`Constant`. -/
def specSteps : Expr → List Expr
| .const _ => []
| .namedConst _ _ => []
| .binary l op r =>
    (specSteps l).dropLast.map (fun s => Expr.binary s op r)
    ++ (specSteps r).dropLast.map (fun s => Expr.binary (.const (specValue l)) op s)
    ++ [Expr.binary (.const (specValue l)) op (.const (specValue r)),
        .const (op.fn (specValue l) (specValue r))]
| .unary op a =>
    (specSteps a).dropLast.map (fun s => Expr.unary op s)
    ++ [Expr.unary op (.const (specValue a)), .const (op.fn (specValue a))]
| .call f args =>
    specArgSteps f [] args
    ++ [Expr.call f (ofVals (specValues args)), .const (f.fn (specValues args))]

/-- Written from the spec's words (section 4.3): "for the i-th argument,
recursively evaluate it; for every one of its intermediate steps except the
last, emit a `FunctionCallExpr` where already-resolved earlier arguments are
substituted with their final values, the current position holds the partial
step, and later positions still hold their original unresolved
sub-expressions". -/
def specArgSteps : Func → List Int → ExprList → List Expr
| _, _, .nil => []
| f, vals, .cons a rest =>
    (specSteps a).dropLast.map
      (fun s => Expr.call f ((ofVals vals).append (.cons s rest)))
    ++ specArgSteps f (vals ++ [specValue a]) rest

end

/-- The expression `BinaryExpr(Constant(2), ADD, Constant(3))` of the spec's
concrete step-count example. -/
def exTwoPlusThree : Expr := .binary (.const 2) .add (.const 3)

/-- Models the Python call discipline of `calculate(expression)` when the
caller relies on the default value of the `steps` parameter
(`src/server.py` line 12, `def calculate(expression, steps=[])`).  Python
evaluates the default expression `[]` once, at function definition time,
and every default-using call receives that same list object; `calculate`
appends into it and returns it, so the contents of the shared default list
after the call are exactly the returned step list.  The function returns
the call result paired with the new contents of the shared default list. -/
def calculateWithDefault (e : Expr) (defaultList : List Expr) :
    (Int × List Expr) × List Expr :=
  let r := calculate e defaultList
  (r, r.2)

/-- Modelled from the spec: the status of a response, one of `OK`,
`CLIENT_ERROR`, `SERVER_ERROR` (the numeric codes live in the missing
`api` module). -/
inductive Status
| ok
| clientError
| serverError
deriving DecidableEq

/-- Modelled from the spec (section 3, "Message"): the header exchanged in
both directions.  The payload bytes are embedded as a `String`; the proxy
treats them opaquely and the server-side decoding is passed in explicitly
where it matters. -/
structure CalculatorHeader where
  is_request : Bool
  status_code : Status
  data : String
  show_steps : Bool
  cache_result : Bool
  cache_control : Nat
  unix_time_stamp : Int
deriving DecidableEq

/-- Modelled from the spec: the reserved maximum cache-control sentinel
(`CalculatorHeader.MAX_CACHE_CONTROL`); `src/server.py` line 9 pins the
value `2 ** 16 - 1`. -/
def MAX_CACHE_CONTROL : Nat := 2 ^ 16 - 1

/-- Translated from `src/proxy.py` line 9:
`INDEFINITE = api.CalculatorHeader.MAX_CACHE_CONTROL`. -/
def INDEFINITE : Nat := MAX_CACHE_CONTROL

/-- Modelled from the spec: `CalculatorHeader.from_error` (missing `api`
module) builds an error response carrying the error text, the given status
and cache directives; `unix_time_stamp` is set once when the response is
produced, here passed as `now`. -/
def CalculatorHeader.from_error (msg : String) (status : Status)
    (cacheResult : Bool) (cacheControl : Nat) (now : Int) : CalculatorHeader :=
  { is_request := false, status_code := status, data := msg,
    show_steps := false, cache_result := cacheResult,
    cache_control := cacheControl, unix_time_stamp := now }

/-- Modelled from the spec: `CalculatorHeader.from_result` (missing `api`
module) builds a successful response carrying the encoded result and step
strings.  The byte-level payload encoding is needed by no claim and is
embedded as a readable rendering. -/
def CalculatorHeader.from_result (result : Int) (steps : List String)
    (cacheResult : Bool) (cacheControl : Nat) (now : Int) : CalculatorHeader :=
  { is_request := false, status_code := .ok,
    data := toString result ++ "|" ++ String.intercalate "|" steps,
    show_steps := !steps.isEmpty, cache_result := cacheResult,
    cache_control := cacheControl, unix_time_stamp := now }

/-- Modelled from the spec: `CalculatorHeader.from_response` (missing `api`
module), the constructor the client uses to build its termination message —
a response-shaped header with the given payload, status and cache
directives. -/
def CalculatorHeader.from_response (d : String) (status : Status)
    (showSteps : Bool) (cacheResult : Bool) (cacheControl : Nat)
    (now : Int) : CalculatorHeader :=
  { is_request := false, status_code := status, data := d,
    show_steps := showSteps, cache_result := cacheResult,
    cache_control := cacheControl, unix_time_stamp := now }

/-- Translated from `src/proxy.py` line 8: the proxy cache, a mapping keyed
by `(request.data, request.show_steps)`, embedded as an association list.
Lookup takes the first match and store prepends, which agrees with Python
dict overwrite as observed through lookup. -/
abbrev Cache := List ((String × Bool) × CalculatorHeader)

/-- Association-list lookup for the proxy cache. -/
def cacheFind : Cache → String × Bool → Option CalculatorHeader
| [], _ => none
| (k, v) :: rest, key => if k = key then some v else cacheFind rest key

/-- Store/overwrite a cache entry (`cache[key] = response` in the source). -/
def cacheStore (c : Cache) (key : String × Bool) (v : CalculatorHeader) :
    Cache :=
  (key, v) :: c

/-- Translated from `src/proxy.py` lines 34-35 and 65-66: a cache-control
value with the `INDEFINITE` sentinel mapped to `math.inf`, embedded as
`none`. -/
def ccValue (cc : Nat) : Option Int :=
  if cc = INDEFINITE then none else some cc

/-- Translated from `src/proxy.py` lines 36-37 and 67-68: the remaining
freshness window, `cc - age`, where an infinite cache-control stays
infinite. -/
def remainingTime (cc : Nat) (age : Int) : Option Int :=
  match ccValue cc with
  | none => none
  | some c => some (c - age)

/-- The `> 0` test on a remaining window (`math.inf > 0` is true). -/
def remainingPos : Option Int → Bool
| none => true
| some r => decide (r > 0)

/-- The possible outcomes of the origin round-trip attempted by
`process_request` in `src/proxy.py` (lines 44-62): the connection may be
refused, the received bytes may fail to unpack, or a header comes back.
The outcome is an explicit input of the embedding. -/
inductive OriginOutcome
| connectRefused
| undecodable
| reply (resp : CalculatorHeader)
deriving DecidableEq

/-- The exceptions `process_request` in `src/proxy.py` raises:
`CalculatorServerError` when the origin connection is refused (line 48),
`CalculatorClientError` when the origin response cannot be unpacked
(line 57), `TypeError` on a request/response shape violation (lines 21
and 61). -/
inductive ProxyError
| typeErr
| serverErr
| clientErr
deriving DecidableEq

/-- Translated from `src/proxy.py` lines 44-74: the origin round-trip part
of `process_request` — connect, send, receive, unpack, then cache the
response when `request.cache_result and response.cache_result and
(server_time_remaining > 0 and client_time_remaining > 0)`.  Returns the
Python return tuple `(response, server_time_remaining,
client_time_remaining, from_cache, was_stale, cached)` (or the raised
exception) together with the resulting cache table. -/
def proxyFetch (request : CalculatorHeader) (cch : Cache) (now : Int)
    (origin : OriginOutcome) (wasStale : Bool) :
    Except ProxyError
      (CalculatorHeader × Option Int × Option Int × Bool × Bool × Bool) ×
      Cache :=
  match origin with
  | .connectRefused => (.error .serverErr, cch)
  | .undecodable => (.error .clientErr, cch)
  | .reply resp =>
    if resp.is_request then (.error .typeErr, cch)
    else
      let age := now - resp.unix_time_stamp
      let srem := remainingTime resp.cache_control age
      let crem := remainingTime request.cache_control age
      if request.cache_result && resp.cache_result &&
          (remainingPos srem && remainingPos crem) then
        (.ok (resp, srem, crem, false, wasStale, true),
          cacheStore cch (request.data, request.show_steps) resp)
      else
        (.ok (resp, srem, crem, false, wasStale, false), cch)

/-- Translated from `src/proxy.py`, `process_request` (lines 12-74): reject
responses, consult the cache unless the request's cache-control is `0`,
serve a fresh entry as a `HIT`, otherwise fall through to the origin
round-trip (`proxyFetch`), remembering whether a stale entry was seen. -/
def proxyProcessRequest (request : CalculatorHeader) (cch : Cache)
    (now : Int) (origin : OriginOutcome) :
    Except ProxyError
      (CalculatorHeader × Option Int × Option Int × Bool × Bool × Bool) ×
      Cache :=
  if !request.is_request then (.error .typeErr, cch)
  else
    match cacheFind cch (request.data, request.show_steps) with
    | some resp =>
      if request.cache_control ≠ 0 then
        let age := now - resp.unix_time_stamp
        let srem := remainingTime resp.cache_control age
        let crem := remainingTime request.cache_control age
        if remainingPos srem && remainingPos crem then
          (.ok (resp, srem, crem, true, false, false), cch)
        else proxyFetch request cch now origin true
      else proxyFetch request cch now origin false
    | none => proxyFetch request cch now origin false

/-- One iteration of the read loop of `client_handler` in `src/proxy.py`
(lines 121-178): what `recv`/`unpack` yielded from the downstream client —
an empty read, bytes whose unpacking raises, or a decoded message. -/
inductive ProxyEvent
| closed
| garbage
| msg (request : CalculatorHeader)
deriving DecidableEq

/-- What the upstream server socket yields for one forwarded request in
`client_handler` of `src/proxy.py`: bytes that unpack to a header, or bytes
whose unpacking raises. -/
inductive UpstreamReply
| reply (resp : CalculatorHeader)
| garbage
deriving DecidableEq

/-- The externally observable action of one `client_handler` loop iteration
in `src/proxy.py`: nothing, the raw relay of the `EXIT` exchange, a cached
response, a forwarded origin response, or an error response. -/
inductive ProxyAction
| noAction
| relayExit
| sendCached (resp : CalculatorHeader)
| sendForwarded (resp : CalculatorHeader)
| sendError (resp : CalculatorHeader)
deriving DecidableEq

/-- Translated from `src/proxy.py` lines 175-178: the response the handler
sends when anything in the loop body raises —
`from_error(CalculatorServerError("Internal proxy error", e),
STATUS_SERVER_ERROR, False, 0)`. -/
def proxyErrorResponse (now : Int) : CalculatorHeader :=
  CalculatorHeader.from_error "Internal proxy error" .serverError false 0 now

/-- Translated from `src/proxy.py` lines 158-172: the forward-to-origin part
of the `client_handler` loop — send the request upstream, unpack the reply
(an unpack failure raises into the handler's `except` clause, which answers
with `proxyErrorResponse`), store it when `request.cache_result and
response.cache_result`, and relay it downstream.  The `Bool` component
tells whether the loop continues. -/
def proxyForward (request : CalculatorHeader) (cch : Cache) (now : Int)
    (upstream : UpstreamReply) : ProxyAction × Cache × Bool :=
  match upstream with
  | .garbage => (.sendError (proxyErrorResponse now), cch, true)
  | .reply resp =>
    if request.cache_result && resp.cache_result then
      (.sendForwarded resp,
        cacheStore cch (request.data, request.show_steps) resp, true)
    else (.sendForwarded resp, cch, true)

/-- Translated from `src/proxy.py`, one iteration of the `client_handler`
read loop (lines 121-178): an empty read stops the loop; undecodable bytes
raise and are answered with the proxy error response, keeping the loop; an
`EXIT` payload is relayed to the origin and stops the loop; otherwise the
cache is consulted — a fresh entry is served directly, anything else is
forwarded to the origin (`proxyForward`). -/
def proxyHandlerStep (ev : ProxyEvent) (cch : Cache) (now : Int)
    (upstream : UpstreamReply) : ProxyAction × Cache × Bool :=
  match ev with
  | .closed => (.noAction, cch, false)
  | .garbage => (.sendError (proxyErrorResponse now), cch, true)
  | .msg request =>
    if request.data = "EXIT" then (.relayExit, cch, false)
    else
      match cacheFind cch (request.data, request.show_steps) with
      | some resp =>
        let age := now - resp.unix_time_stamp
        if remainingPos (remainingTime resp.cache_control age) &&
            remainingPos (remainingTime request.cache_control age) then
          (.sendCached resp, cch, true)
        else proxyForward request cch now upstream
      | none => proxyForward request cch now upstream

/-- Translated from `src/server.py` lines 7-9: the cache policy advertised
on every server response. -/
def CACHE_POLICY : Bool := true

/-- Translated from `src/server.py` line 9: `CACHE_CONTROL = 2 ** 16 - 1`,
the maximum time a server response may be cached for. -/
def CACHE_CONTROL : Nat := 2 ^ 16 - 1

/-- Translated from `src/server.py`, `process_request` (lines 59-78).  The
call `api.data_to_expression(request)` decodes the request payload with
code from the missing `api` module, so its outcome — an expression, or the
text of the exception it raises — is passed in explicitly as `decoded`.
Any exception (a response received instead of a request, a payload decode
failure, an evaluation failure) is answered with `from_error(e,
STATUS_CLIENT_ERROR, CACHE_POLICY, CACHE_CONTROL)`; a successful
evaluation is answered with `from_result(result, steps, CACHE_POLICY,
CACHE_CONTROL)`, the steps stringified with brackets only when the request
asked for them. -/
def serverProcessRequest (request : CalculatorHeader)
    (decoded : Except String Expr) (now : Int) : CalculatorHeader :=
  if request.is_request then
    match decoded with
    | .error e =>
      CalculatorHeader.from_error e .clientError CACHE_POLICY CACHE_CONTROL now
    | .ok expr =>
      let r := calculate expr []
      let steps := if request.show_steps then r.2.map (stringify true) else []
      CalculatorHeader.from_result r.1 steps CACHE_POLICY CACHE_CONTROL now
  else
    CalculatorHeader.from_error "Received a response instead of a request"
      .clientError CACHE_POLICY CACHE_CONTROL now

/-- Translated from `src/server.py` line 137: the check that a received
message is the termination signal — a non-request whose payload is the
byte string `terminate`. -/
def serverIsTermination (request : CalculatorHeader) : Bool :=
  !request.is_request && request.data == "terminate"

/-- One iteration of the read loop of `client_handler` in `src/server.py`
(lines 117-158): what `recv`/`unpack` yielded — an empty read, bytes whose
unpacking raises, a decoded message, or an unexpected internal failure in
the body, whose error-response send may itself succeed or fail. -/
inductive ServerEvent
| closed
| garbage
| msg (request : CalculatorHeader)
| internalFailure (sendOk : Bool)
deriving DecidableEq

/-- The externally observable action of one server `client_handler` loop
iteration: nothing, or one response sent back. -/
inductive ServerAction
| noAction
| send (resp : CalculatorHeader)
deriving DecidableEq

/-- Translated from `src/server.py`, one iteration of the `client_handler`
read loop (lines 117-158): an empty read stops the loop; bytes that fail to
unpack are answered with a `CLIENT_ERROR` error response and the loop
continues; the termination message stops the loop with no reply; any other
message is processed and answered; an unexpected internal failure is
answered with a `SERVER_ERROR` error response, and the loop stops exactly
when sending that error response itself fails. -/
def serverHandlerStep (ev : ServerEvent) (decoded : Except String Expr)
    (now : Int) : ServerAction × Bool :=
  match ev with
  | .closed => (.noAction, false)
  | .garbage =>
    (.send (CalculatorHeader.from_error "Error unpacking request"
      .clientError CACHE_POLICY CACHE_CONTROL now), true)
  | .msg request =>
    if serverIsTermination request then (.noAction, false)
    else (.send (serverProcessRequest request decoded now), true)
  | .internalFailure sendOk =>
    (.send (CalculatorHeader.from_error "Unexpected server error"
      .serverError CACHE_POLICY CACHE_CONTROL now), sendOk)

/-- Translated from `src/client.py` lines 79-90: the termination message the
client sends when the user types `exit` — a response-shaped header built
with `from_response`, payload `EXIT`, status `OK`, no steps, no caching,
cache-control `0`. -/
def clientTerminationMessage (now : Int) : CalculatorHeader :=
  CalculatorHeader.from_response "EXIT" .ok false false 0 now

/-- A concrete request header used by the concrete instances below:
a request for payload `payload` without steps, asking to cache, with a
50-second client window. -/
def sampleRequest : CalculatorHeader :=
  { is_request := true, status_code := .ok, data := "payload",
    show_steps := false, cache_result := true, cache_control := 50,
    unix_time_stamp := 0 }

/-- A concrete origin response whose freshness window has already elapsed at
time 1000: cacheable, but with a 5-second window and produced at
time 800. -/
def staleResponse : CalculatorHeader :=
  { is_request := false, status_code := .ok, data := "result",
    show_steps := false, cache_result := true, cache_control := 5,
    unix_time_stamp := 800 }

/-- A concrete fresh origin response carrying the indefinite cache-control
sentinel, produced at time 1000. -/
def freshResponse : CalculatorHeader :=
  { is_request := false, status_code := .ok, data := "result",
    show_steps := false, cache_result := true,
    cache_control := MAX_CACHE_CONTROL, unix_time_stamp := 1000 }

/-- The stored entry of the freshness-law example: cache-control 100
seconds, stored with timestamp 1000. -/
def freshnessEntry : CalculatorHeader :=
  { is_request := false, status_code := .ok, data := "result",
    show_steps := false, cache_result := true, cache_control := 100,
    unix_time_stamp := 1000 }

/-- The request of the freshness-law example: grants a window at least as
long as the stored entry does (100 seconds). -/
def freshnessRequest : CalculatorHeader :=
  { is_request := true, status_code := .ok, data := "payload",
    show_steps := false, cache_result := true, cache_control := 100,
    unix_time_stamp := 0 }

/-- The one-entry cache table of the freshness-law example. -/
def freshnessCache : Cache := [(("payload", false), freshnessEntry)]

/-- A concrete request with `cache_control == 0` (the cache-bypass
reload). -/
def bypassRequest : CalculatorHeader :=
  { is_request := true, status_code := .ok, data := "payload",
    show_steps := false, cache_result := true, cache_control := 0,
    unix_time_stamp := 0 }

/-- A concrete origin response that forbids storing
(`cache_result == false`). -/
def noStoreResponse : CalculatorHeader :=
  { is_request := false, status_code := .ok, data := "result",
    show_steps := false, cache_result := false,
    cache_control := MAX_CACHE_CONTROL, unix_time_stamp := 1000 }

mutual

/-- The evaluator translated from the source produces exactly the value and
step trace prescribed by the spec, for every expression tree. -/
theorem calculate_eq_spec : (e : Expr) → calculate e [] = (specValue e, specSteps e)
| .const v => by simp [calculate, specValue, specSteps]
| .namedConst n v => by simp [calculate, specValue, specSteps]
| .binary l op r => by
    have hl := calculate_eq_spec l
    have hr := calculate_eq_spec r
    simp [calculate, specValue, specSteps, hl, hr]
| .unary op a => by
    have ha := calculate_eq_spec a
    simp [calculate, specValue, specSteps, ha]
| .call f args => by
    have h := calcArgs_eq_spec args f [] []
    simp [calculate, specValue, specSteps, h]

/-- The argument loop translated from the source produces exactly the values
and argument steps prescribed by the spec, for every accumulator state. -/
theorem calcArgs_eq_spec : (l : ExprList) → (f : Func) → (vals : List Int) →
    (steps : List Expr) →
    calcArgs f l vals steps = (vals ++ specValues l, steps ++ specArgSteps f vals l)
| .nil, f, vals, steps => by simp [calcArgs, specValues, specArgSteps]
| .cons a rest, f, vals, steps => by
    have ha := calculate_eq_spec a
    have hrest := calcArgs_eq_spec rest f (vals ++ [specValue a])
      (steps ++ (specSteps a).dropLast.map
        (fun s => Expr.call f ((ofVals vals).append (.cons s rest))))
    simp only [List.map_dropLast] at hrest
    simp [calcArgs, specValues, specArgSteps, ha, hrest]

end

/-- C1: for every expression tree, `calculate` produces exactly the step
sequence prescribed per variant by the spec (left intermediate steps except
the last wrapped against the original right operand, then right
intermediate steps except the last against the resolved left value, then
the fully resolved node, then the terminal `Constant`; function arguments
resolved strictly left to right with earlier positions replaced by final
values, the current position holding the partial step and later positions
holding the original sub-expressions, followed by the fully resolved call
and the terminal `Constant`), and in particular for
`BinaryExpr(Constant(2), ADD, Constant(3))` the rendered steps are
`["2 + 3", "5"]` and the value is `5`. -/
theorem C1_step_trace_contract :
    (∀ e : Expr, calculate e [] = (specValue e, specSteps e)) ∧
    (calculate exTwoPlusThree []).2.map (stringify true) = ["2 + 3", "5"] ∧
    (calculate exTwoPlusThree []).1 = 5 :=
  ⟨calculate_eq_spec, by decide, by decide⟩

/-- C2: evaluation of the code at the failing input.  A first top-level call
`calculate(BinaryExpr(Constant(2), ADD, Constant(3)))` that relies on the
default `steps` argument returns the two steps `[2 + 3, 5]` and leaves them
inside the shared default list; a second identical call starts from that
polluted list and returns four steps, so the two calls do not return
identical `(value, steps)` pairs — the steps sequence is not freshly
allocated on every call, contradicting the claim and the spec (which itself
flags the mutable default as a latent source-level bug). -/
theorem C2_mutable_default_failing_input :
    (calculateWithDefault exTwoPlusThree []).1 =
      (5, [.binary (.const 2) .add (.const 3), .const 5]) ∧
    (calculateWithDefault exTwoPlusThree
        (calculateWithDefault exTwoPlusThree []).2).1 =
      (5, [.binary (.const 2) .add (.const 3), .const 5,
           .binary (.const 2) .add (.const 3), .const 5]) ∧
    (calculateWithDefault exTwoPlusThree
        (calculateWithDefault exTwoPlusThree []).2).1 ≠
      (calculateWithDefault exTwoPlusThree []).1 := by
  refine ⟨by decide, by decide, by decide⟩

/-- C3 counterexample: on the live handler path of `src/proxy.py`, an
exchange whose origin response has an already-elapsed freshness window
(cache-control 5, produced 200 seconds ago) is nevertheless stored in the
cache, so the claimed equivalence "stored iff ... and server_remaining > 0
and client_remaining > 0" is false at this concrete input. -/
theorem C3_counterexample :
    cacheFind
        (proxyHandlerStep (.msg sampleRequest) [] 1000
          (.reply staleResponse)).2.1 ("payload", false) =
      some staleResponse ∧
    remainingPos (remainingTime staleResponse.cache_control
      (1000 - staleResponse.unix_time_stamp)) = false := by
  refine ⟨by decide, by decide⟩

/-- C3 (amended): after an origin round-trip, the live handler path of
`client_handler` stores the entry under `(request.data,
request.show_steps)` iff `request.cache_result` and
`response.cache_result` both hold — it performs no freshness check, so a
response whose window has elapsed is still cached; the `process_request`
helper (which the handler does not call) stores iff all four conditions
hold, exactly as the claim states. -/
theorem C3_store_condition :
    (∀ (rq : CalculatorHeader) (cch : Cache) (now : Int)
        (resp : CalculatorHeader),
      rq.data ≠ "EXIT" →
      (∀ e, cacheFind cch (rq.data, rq.show_steps) = some e →
        (remainingPos (remainingTime e.cache_control
            (now - e.unix_time_stamp)) &&
          remainingPos (remainingTime rq.cache_control
            (now - e.unix_time_stamp))) = false) →
      proxyHandlerStep (.msg rq) cch now (.reply resp) =
        (.sendForwarded resp,
          (if rq.cache_result && resp.cache_result then
            cacheStore cch (rq.data, rq.show_steps) resp
          else cch), true)) ∧
    (∀ (rq : CalculatorHeader) (cch : Cache) (now : Int)
        (resp : CalculatorHeader),
      rq.is_request = true → resp.is_request = false →
      (∀ e, cacheFind cch (rq.data, rq.show_steps) = some e →
        rq.cache_control ≠ 0 →
        (remainingPos (remainingTime e.cache_control
            (now - e.unix_time_stamp)) &&
          remainingPos (remainingTime rq.cache_control
            (now - e.unix_time_stamp))) = false) →
      (proxyProcessRequest rq cch now (.reply resp)).2 =
        (if rq.cache_result && resp.cache_result &&
            (remainingPos (remainingTime resp.cache_control
                (now - resp.unix_time_stamp)) &&
              remainingPos (remainingTime rq.cache_control
                (now - resp.unix_time_stamp))) then
          cacheStore cch (rq.data, rq.show_steps) resp
        else cch)) := by
  constructor
  · intro rq cch now resp hEXIT hNoFresh
    cases hfind : cacheFind cch (rq.data, rq.show_steps) with
    | none =>
      cases hc : rq.cache_result && resp.cache_result <;>
        simp [proxyHandlerStep, hEXIT, hfind, proxyForward, hc]
    | some e =>
      have hf := hNoFresh e hfind
      cases hc : rq.cache_result && resp.cache_result <;>
        simp [proxyHandlerStep, hEXIT, hfind, hf, proxyForward, hc]
  · intro rq cch now resp hReq hResp hNoFresh
    cases hfind : cacheFind cch (rq.data, rq.show_steps) with
    | none =>
      simp only [proxyProcessRequest, proxyFetch, hReq, hfind,
        Bool.not_true]
      simp [hResp]
      split <;> simp
    | some e =>
      by_cases hcc : rq.cache_control ≠ 0
      · have hf := hNoFresh e hfind hcc
        simp only [proxyProcessRequest, proxyFetch, hReq, hfind,
          Bool.not_true]
        simp [hcc, hf, hResp]
        split <;> simp
      · simp only [proxyProcessRequest, proxyFetch, hReq, hfind,
          Bool.not_true]
        simp [hcc, hResp]
        split <;> simp

/-- C3 witness: the amended store condition applied at a concrete input —
both sides want caching, so the forwarded stale response is stored. -/
theorem C3_store_condition_witness :
    proxyHandlerStep (.msg sampleRequest) [] 1000 (.reply staleResponse) =
      (.sendForwarded staleResponse,
        cacheStore [] ("payload", false) staleResponse, true) := by
  have h := C3_store_condition.1 sampleRequest [] 1000 staleResponse
    (by decide) (by intro e he; simp [cacheFind] at he)
  simpa using h

/-- C5: a request with `cache_control == 0` always performs the origin
round-trip.  `process_request` bypasses the lookup entirely; on the live
handler path the client-side remaining window `0 - age` can never be
positive (for a non-negative entry age), so a cached entry — fresh or not —
is never served and the request is forwarded. -/
theorem C5_cache_bypass :
    (∀ (rq : CalculatorHeader) (cch : Cache) (now : Int)
        (origin : OriginOutcome),
      rq.is_request = true → rq.cache_control = 0 →
      proxyProcessRequest rq cch now origin =
        proxyFetch rq cch now origin false) ∧
    (∀ (rq : CalculatorHeader) (cch : Cache) (now : Int)
        (upstream : UpstreamReply),
      rq.data ≠ "EXIT" → rq.cache_control = 0 →
      (∀ e, cacheFind cch (rq.data, rq.show_steps) = some e →
        0 ≤ now - e.unix_time_stamp) →
      proxyHandlerStep (.msg rq) cch now upstream =
        proxyForward rq cch now upstream) := by
  constructor
  · intro rq cch now origin hReq hcc
    cases hfind : cacheFind cch (rq.data, rq.show_steps) with
    | none => simp [proxyProcessRequest, hReq, hfind]
    | some e => simp [proxyProcessRequest, hReq, hfind, hcc]
  · intro rq cch now upstream hEXIT hcc hAge
    cases hfind : cacheFind cch (rq.data, rq.show_steps) with
    | none => simp [proxyHandlerStep, hEXIT, hfind]
    | some e =>
      have hage := hAge e hfind
      have hpos : remainingPos (remainingTime rq.cache_control
          (now - e.unix_time_stamp)) = false := by
        simp [hcc, remainingTime, ccValue, INDEFINITE, MAX_CACHE_CONTROL,
          remainingPos]
        omega
      simp [proxyHandlerStep, hEXIT, hfind, hpos]

/-- C5 witness: the bypass applied at a concrete input where a fresh entry
exists for the key (entry window 100 seconds, age 50). -/
theorem C5_cache_bypass_witness :
    proxyProcessRequest bypassRequest freshnessCache 1050
        (.reply freshResponse) =
      proxyFetch bypassRequest freshnessCache 1050
        (.reply freshResponse) false ∧
    proxyHandlerStep (.msg bypassRequest) freshnessCache 1050
        (.reply freshResponse) =
      proxyForward bypassRequest freshnessCache 1050
        (.reply freshResponse) := by
  constructor
  · exact C5_cache_bypass.1 bypassRequest freshnessCache 1050
      (.reply freshResponse) (by decide) (by decide)
  · exact C5_cache_bypass.2 bypassRequest freshnessCache 1050
      (.reply freshResponse) (by decide) (by decide)
      (by intro e he
          simp [freshnessCache, cacheFind, bypassRequest] at he
          subst he
          decide)

/-- C6: with an entry present for the key, the handler serves it with no
origin contact exactly when both remaining windows — computed from the
entry's timestamp against the entry's and the request's cache-control
values, the sentinel meaning infinity — are positive; in particular for a
stored entry with cache-control 100 and timestamp 1000, a lookup at 1099
is a hit and a lookup at 1101 is a miss that forwards to the origin. -/
theorem C6_freshness_law :
    (∀ (rq : CalculatorHeader) (cch : Cache) (now : Int)
        (e : CalculatorHeader) (upstream : UpstreamReply),
      rq.data ≠ "EXIT" →
      cacheFind cch (rq.data, rq.show_steps) = some e →
      (proxyHandlerStep (.msg rq) cch now upstream =
          (.sendCached e, cch, true) ↔
        (remainingPos (remainingTime e.cache_control
            (now - e.unix_time_stamp)) &&
          remainingPos (remainingTime rq.cache_control
            (now - e.unix_time_stamp))) = true)) ∧
    proxyHandlerStep (.msg freshnessRequest) freshnessCache 1099
        (.reply freshResponse) =
      (.sendCached freshnessEntry, freshnessCache, true) ∧
    proxyHandlerStep (.msg freshnessRequest) freshnessCache 1101
        (.reply freshResponse) =
      (.sendForwarded freshResponse,
        cacheStore freshnessCache ("payload", false) freshResponse,
        true) := by
  refine ⟨?_, by decide, by decide⟩
  intro rq cch now e upstream hEXIT hfind
  constructor
  · intro h
    cases hcond : (remainingPos (remainingTime e.cache_control
        (now - e.unix_time_stamp)) &&
      remainingPos (remainingTime rq.cache_control
        (now - e.unix_time_stamp))) with
    | true => rfl
    | false =>
      exfalso
      cases upstream with
      | garbage =>
        simp [proxyHandlerStep, hEXIT, hfind, hcond, proxyForward] at h
      | reply r =>
        cases hcr : rq.cache_result && r.cache_result <;>
          simp [proxyHandlerStep, hEXIT, hfind, hcond, proxyForward,
            hcr] at h
  · intro hcond
    simp [proxyHandlerStep, hEXIT, hfind, hcond]

/-- C6 witness: the hit equivalence applied at the concrete freshness-law
input at time 1099. -/
theorem C6_freshness_law_witness :
    proxyHandlerStep (.msg freshnessRequest) freshnessCache 1099
        (.reply freshResponse) =
      (.sendCached freshnessEntry, freshnessCache, true) ↔
    (remainingPos (remainingTime freshnessEntry.cache_control
        (1099 - freshnessEntry.unix_time_stamp)) &&
      remainingPos (remainingTime freshnessRequest.cache_control
        (1099 - freshnessEntry.unix_time_stamp))) = true :=
  C6_freshness_law.1 freshnessRequest freshnessCache 1099 freshnessEntry
    (.reply freshResponse) (by decide) (by decide)

/-- C7: if the origin response carries `cache_result == false`, the
exchange leaves the cache table exactly unchanged, on the live handler
path and in `process_request` alike, regardless of the request's own
preference. -/
theorem C7_no_store_law :
    (∀ (ev : ProxyEvent) (cch : Cache) (now : Int)
        (resp : CalculatorHeader),
      resp.cache_result = false →
      (proxyHandlerStep ev cch now (.reply resp)).2.1 = cch) ∧
    (∀ (rq : CalculatorHeader) (cch : Cache) (now : Int)
        (resp : CalculatorHeader),
      resp.cache_result = false →
      (proxyProcessRequest rq cch now (.reply resp)).2 = cch) := by
  constructor
  · intro ev cch now resp hresp
    cases ev with
    | closed => rfl
    | garbage => rfl
    | msg rq =>
      by_cases hEXIT : rq.data = "EXIT"
      · simp [proxyHandlerStep, hEXIT]
      · cases hfind : cacheFind cch (rq.data, rq.show_steps) with
        | none => simp [proxyHandlerStep, hEXIT, hfind, proxyForward, hresp]
        | some e =>
          cases hcond : (remainingPos (remainingTime e.cache_control
              (now - e.unix_time_stamp)) &&
            remainingPos (remainingTime rq.cache_control
              (now - e.unix_time_stamp))) <;>
            simp [proxyHandlerStep, hEXIT, hfind, hcond, proxyForward,
              hresp]
  · intro rq cch now resp hresp
    have hfetch : ∀ ws, (proxyFetch rq cch now (.reply resp) ws).2 = cch := by
      intro ws
      simp [proxyFetch, hresp]
      split <;> rfl
    by_cases hReq : rq.is_request = true
    · cases hfind : cacheFind cch (rq.data, rq.show_steps) with
      | none => simp [proxyProcessRequest, hReq, hfind, hfetch]
      | some e =>
        by_cases hcc : rq.cache_control ≠ 0
        · cases hcond : (remainingPos (remainingTime e.cache_control
              (now - e.unix_time_stamp)) &&
            remainingPos (remainingTime rq.cache_control
              (now - e.unix_time_stamp))) <;>
            simp [proxyProcessRequest, hReq, hfind, hcc, hcond, hfetch]
        · simp [proxyProcessRequest, hReq, hfind, hcc, hfetch]
    · have hReqF : rq.is_request = false := by
        revert hReq
        cases rq.is_request <;> simp
      simp [proxyProcessRequest, hReqF]

/-- C7 witness: the no-store law applied at a concrete input — the origin
answers with a response forbidding caching, the cache (holding one
unrelated fresh entry) is untouched. -/
theorem C7_no_store_law_witness :
    (proxyHandlerStep (.msg sampleRequest) freshnessCache 2000
        (.reply noStoreResponse)).2.1 = freshnessCache ∧
    (proxyProcessRequest sampleRequest freshnessCache 2000
        (.reply noStoreResponse)).2 = freshnessCache := by
  constructor
  · exact C7_no_store_law.1 (.msg sampleRequest) freshnessCache 2000
      noStoreResponse (by decide)
  · exact C7_no_store_law.2 sampleRequest freshnessCache 2000
      noStoreResponse (by decide)

/-- C8: when the origin connection is refused, `process_request` raises the
server-attributed error; when the origin response cannot be unpacked it
raises the malformed-response error; in both cases the cache table is
exactly as before.  On the live handler path an undecodable origin reply
lands in the `except` clause, which answers the requester with the proxy
error response — whose status is `SERVER_ERROR` — and leaves the cache
unchanged. -/
theorem C8_origin_failure :
    (∀ (rq : CalculatorHeader) (cch : Cache) (now : Int),
      rq.is_request = true →
      cacheFind cch (rq.data, rq.show_steps) = none →
      proxyProcessRequest rq cch now .connectRefused =
        (.error .serverErr, cch)) ∧
    (∀ (rq : CalculatorHeader) (cch : Cache) (now : Int),
      rq.is_request = true →
      cacheFind cch (rq.data, rq.show_steps) = none →
      proxyProcessRequest rq cch now .undecodable =
        (.error .clientErr, cch)) ∧
    (∀ (rq : CalculatorHeader) (cch : Cache) (now : Int),
      rq.data ≠ "EXIT" →
      cacheFind cch (rq.data, rq.show_steps) = none →
      proxyHandlerStep (.msg rq) cch now .garbage =
        (.sendError (proxyErrorResponse now), cch, true)) ∧
    (∀ now : Int, (proxyErrorResponse now).status_code = .serverError) := by
  refine ⟨?_, ?_, ?_, ?_⟩
  · intro rq cch now hReq hfind
    simp [proxyProcessRequest, proxyFetch, hReq, hfind]
  · intro rq cch now hReq hfind
    simp [proxyProcessRequest, proxyFetch, hReq, hfind]
  · intro rq cch now hEXIT hfind
    simp [proxyHandlerStep, hEXIT, hfind, proxyForward]
  · intro now
    rfl

/-- C8 witness: the failure clauses applied at a concrete input with an
empty cache. -/
theorem C8_origin_failure_witness :
    proxyProcessRequest sampleRequest [] 1000 .connectRefused =
      (.error .serverErr, []) ∧
    proxyProcessRequest sampleRequest [] 1000 .undecodable =
      (.error .clientErr, []) ∧
    proxyHandlerStep (.msg sampleRequest) [] 1000 .garbage =
      (.sendError (proxyErrorResponse 1000), [], true) := by
  refine ⟨?_, ?_, ?_⟩
  · exact C8_origin_failure.1 sampleRequest [] 1000 (by decide) (by decide)
  · exact C8_origin_failure.2.1 sampleRequest [] 1000 (by decide)
      (by decide)
  · exact C8_origin_failure.2.2.1 sampleRequest [] 1000 (by decide)
      (by decide)

/-- C4: evaluation of the code at the failing input.  The client terminates
by sending a response-shaped message with payload `EXIT`
(`src/client.py`), but the server ends its loop only on a non-request with
payload `terminate` (`src/server.py`), so the client's termination message
is not recognized: the server instead answers it with a `CLIENT_ERROR`
response (a response is not a request) and keeps the loop running.  A
message that does match the server's own sentinel is recognized. -/
theorem C4_termination_sentinel_mismatch :
    serverIsTermination (clientTerminationMessage 0) = false ∧
    serverHandlerStep (.msg (clientTerminationMessage 0))
        (.error "no expression payload") 0 =
      (.send (CalculatorHeader.from_error
          "Received a response instead of a request" .clientError
          CACHE_POLICY CACHE_CONTROL 0), true) ∧
    serverIsTermination
      (CalculatorHeader.from_response "terminate" .ok false false 0 0) =
        true := by
  refine ⟨by decide, by decide, by decide⟩

/-- C9: bytes that fail to unpack are answered with a `CLIENT_ERROR`
response and the loop continues; the loop stops exactly on an empty read,
on the termination message, or when sending the error response for an
unexpected internal failure itself fails. -/
theorem C9_decode_failure_recovery :
    (∀ (d : Except String Expr) (now : Int), ∃ resp,
      serverHandlerStep .garbage d now = (.send resp, true) ∧
      resp.status_code = .clientError) ∧
    (∀ (ev : ServerEvent) (d : Except String Expr) (now : Int),
      (serverHandlerStep ev d now).2 = false ↔
        ev = .closed ∨
        (∃ rq, ev = .msg rq ∧ serverIsTermination rq = true) ∨
        ev = .internalFailure false) := by
  constructor
  · intro d now
    exact ⟨_, rfl, rfl⟩
  · intro ev d now
    cases ev with
    | closed => simp [serverHandlerStep]
    | garbage => simp [serverHandlerStep]
    | msg rq =>
      cases h : serverIsTermination rq <;>
        simp [serverHandlerStep, h]
    | internalFailure s => cases s <;> simp [serverHandlerStep]

/-- C9 witness: the loop-stop characterization applied at a concrete input
— the termination message stops the loop. -/
theorem C9_decode_failure_recovery_witness :
    (serverHandlerStep
        (.msg (CalculatorHeader.from_response "terminate" .ok false false
          0 0)) (.error "e") 0).2 = false ↔
      ServerEvent.msg (CalculatorHeader.from_response "terminate" .ok
          false false 0 0) = .closed ∨
      (∃ rq, ServerEvent.msg (CalculatorHeader.from_response "terminate"
          .ok false false 0 0) = .msg rq ∧ serverIsTermination rq = true) ∨
      ServerEvent.msg (CalculatorHeader.from_response "terminate" .ok
          false false 0 0) = .internalFailure false :=
  C9_decode_failure_recovery.2
    (.msg (CalculatorHeader.from_response "terminate" .ok false false 0 0))
    (.error "e") 0

/-- C10: every response the evaluator server builds — the result of
`process_request` and the error responses of the handler loop alike —
carries `cache_result = True` and `cache_control = 2 ^ 16 - 1`, and a
response with that cache-control always passes the intermediary's
response-side freshness test, whatever its age. -/
theorem C10_uniform_cache_directives :
    (∀ (rq : CalculatorHeader) (d : Except String Expr) (now : Int),
      (serverProcessRequest rq d now).cache_result = true ∧
      (serverProcessRequest rq d now).cache_control = 2 ^ 16 - 1) ∧
    (∀ (ev : ServerEvent) (d : Except String Expr) (now : Int)
        (resp : CalculatorHeader),
      (serverHandlerStep ev d now).1 = .send resp →
      resp.cache_result = true ∧ resp.cache_control = 2 ^ 16 - 1) ∧
    (∀ age : Int,
      remainingPos (remainingTime CACHE_CONTROL age) = true) := by
  have hmain : ∀ (rq : CalculatorHeader) (d : Except String Expr)
      (now : Int),
      (serverProcessRequest rq d now).cache_result = true ∧
      (serverProcessRequest rq d now).cache_control = 2 ^ 16 - 1 := by
    intro rq d now
    cases hr : rq.is_request <;> cases d <;>
      simp [serverProcessRequest, hr, CalculatorHeader.from_error,
        CalculatorHeader.from_result, CACHE_POLICY, CACHE_CONTROL]
  refine ⟨hmain, ?_, ?_⟩
  · intro ev d now resp h
    cases ev with
    | closed => simp [serverHandlerStep] at h
    | garbage =>
      simp [serverHandlerStep] at h
      simp [← h, CalculatorHeader.from_error, CACHE_POLICY, CACHE_CONTROL]
    | msg rq =>
      cases ht : serverIsTermination rq
      · simp [serverHandlerStep, ht] at h
        exact h ▸ hmain rq d now
      · simp [serverHandlerStep, ht] at h
    | internalFailure s =>
      simp [serverHandlerStep] at h
      simp [← h, CalculatorHeader.from_error, CACHE_POLICY, CACHE_CONTROL]
  · intro age
    simp [remainingTime, ccValue, remainingPos, CACHE_CONTROL, INDEFINITE,
      MAX_CACHE_CONTROL]

/-- C10 witness: the handler clause applied at a concrete input — the
error response for undecodable bytes carries the uniform cache
directives. -/
theorem C10_uniform_cache_directives_witness :
    (serverHandlerStep .garbage (.error "e") 0).1 =
      .send (CalculatorHeader.from_error "Error unpacking request"
        .clientError CACHE_POLICY CACHE_CONTROL 0) ∧
    ((CalculatorHeader.from_error "Error unpacking request" .clientError
        CACHE_POLICY CACHE_CONTROL 0).cache_result = true ∧
      (CalculatorHeader.from_error "Error unpacking request" .clientError
        CACHE_POLICY CACHE_CONTROL 0).cache_control = 2 ^ 16 - 1) :=
  ⟨by decide, C10_uniform_cache_directives.2.1 .garbage (.error "e") 0 _
    (by decide)⟩

end PythonServer
